import Mathlib

/-!
Verification of the route-stats worker (caching/revalidation edge layer and
difficulty-scoring engine).

The JavaScript source is shallowly embedded:
* JS numbers are modelled as rationals (`ℚ`); `Math.round` is `⌊x + 1/2⌋`.
* `parseInt(s, 10)` may produce `NaN`, modelled by the type `JSInt`.
* Nullable strings (`searchParams.get`, `x || null`) are `Option String`;
  JS string truthiness (empty string is falsy) is applied explicitly.
* The KV store is an association list keyed by strings; JSON
  serialization round-trips structured values unchanged.
* Rendered HTML is an inductive value recording exactly the inputs the pure
  renderer received (the renderer in renderer.js is a pure formatter).
-/

/-- JS `Math.round`: round half toward positive infinity. -/
def jsRound (q : ℚ) : ℤ := ⌊q + 1/2⌋

/-- JS string truthiness applied to a nullable string: both `null` and the
empty string are falsy (models `x ? ... : null` and `x || null`). -/
def jsStrOpt (o : Option String) : Option String :=
  match o with
  | some s => if s = "" then none else some s
  | none => none

/-- Result of JS `parseInt`: an integer or `NaN`. -/
inductive JSInt where
  | nan : JSInt
  | val : ℤ → JSInt
deriving DecidableEq, Repr

/-- Fold a digit-character run into a natural number. -/
def digitsToNat (ds : List Char) : ℕ :=
  ds.foldl (fun acc c => acc * 10 + (c.toNat - 48)) 0

/-- Core of `parseInt(s, 10)` after sign handling: longest leading digit run;
`NaN` when there is none. -/
def parseIntCore (sign : ℤ) (cs : List Char) : JSInt :=
  let ds := cs.takeWhile (fun c => c.isDigit)
  if ds = [] then JSInt.nan
  else JSInt.val (sign * (digitsToNat ds : ℤ))

/-- JS `parseInt(s, 10)`: skip leading whitespace, optional sign, longest
leading digit run; `NaN` when no digits follow. -/
def parseInt10 (s : String) : JSInt :=
  let cs := s.toList.dropWhile (fun c => c = ' ' || c = '\t' || c = '\n' || c = '\r')
  match cs with
  | '-' :: rest => parseIntCore (-1) rest
  | '+' :: rest => parseIntCore 1 rest
  | rest => parseIntCore 1 rest

/-- JS `String(stars)` for the parseInt result (`NaN` prints as "NaN"). -/
def jsIntToString (j : JSInt) : String :=
  match j with
  | JSInt.nan => "NaN"
  | JSInt.val n => toString n

/-- Normalized route data (`normalizeRouteData` in rwgps.js).  Track-point
and timestamp fields that no claim touches are carried as plain strings. -/
structure RouteData where
  id : ℤ
  name : String
  distance : ℚ
  distanceKm : ℚ
  elevationGain : ℚ
  elevationLoss : ℚ
  unpavedPct : ℚ
  pavedPct : ℚ
  surface : String
  terrain : String
  difficulty : String
  trackType : String
deriving DecidableEq, Repr

namespace TechCap

/-! The categorical-cap technical-difficulty calculator
(first module of src/unnamed/part_001). -/

/-- Source: `DIFFICULTY_BASE_SCORES` lookup; `none` covers both the explicit
`multi_day: null` entry and absent keys (both fail the JS
`base !== null && base !== undefined` test). -/
def DIFFICULTY_BASE_SCORES (d : String) : Option ℚ :=
  if d = "casual" then some 1
  else if d = "easy" then some 2
  else if d = "moderate" then some 3
  else if d = "hard" then some 4
  else none

/-- Source: `getBaseScore`: base from difficulty, terrain fallback otherwise. -/
def getBaseScore (difficulty terrain : String) : ℚ :=
  match DIFFICULTY_BASE_SCORES difficulty with
  | some base => base
  | none =>
    if terrain = "climbing" then 3
    else if terrain = "rolling" then 2
    else 2

/-- Source: `TERRAIN_MODIFIERS` lookup table. -/
def TERRAIN_MODIFIERS (t : String) : Option ℚ :=
  if t = "flat" then some 0
  else if t = "rolling" then some 0
  else if t = "climbing" then some 1
  else if t = "unknown" then some 0
  else none

/-- Source: `getTerrainModifier`: `TERRAIN_MODIFIERS[terrain] || 0` (all falsy
lookups, including the stored `0`s, give `0`). -/
def getTerrainModifier (terrain : String) : ℚ :=
  match TERRAIN_MODIFIERS terrain with
  | some m => m
  | none => 0

/-- Source: `getUnpavedKm`: negative percentage means unknown, treated as 0. -/
def getUnpavedKm (distanceKm unpavedPct : ℚ) : ℚ :=
  if unpavedPct < 0 then 0 else unpavedPct / 100 * distanceKm

/-- Source: `applySurfaceCaps`: surface-class caps and the unknown-surface floor. -/
def applySurfaceCaps (rawScore : ℚ) (surface terrain difficulty : String)
    (unpavedKm : ℚ) : ℚ :=
  if surface = "paved" then min rawScore 1
  else if surface = "mostly_paved" then
    if unpavedKm < 1 then min rawScore 1 else min rawScore 2
  else if surface = "mixed_surfaces" then
    if unpavedKm < 1 then min rawScore 2
    else if terrain = "climbing" ∨ difficulty = "hard" then rawScore
    else min rawScore 3
  else if surface = "mostly_unpaved" then
    if terrain = "climbing" ∨ difficulty = "hard" then rawScore
    else min rawScore 3
  else if surface = "unknown" then max rawScore 3
  else rawScore

/-- Result record of `calculateTechnicalDifficulty` (categorical-cap). -/
structure Result where
  score : ℤ
  baseScore : ℚ
  terrainModifier : ℚ
  surface : String
  terrain : String
  difficulty : String
  unpavedKm : ℚ
deriving DecidableEq, Repr

/-- Source: `calculateTechnicalDifficulty` (categorical-cap strategy). -/
def calculateTechnicalDifficulty (rd : RouteData) : Result :=
  let baseScore := getBaseScore rd.difficulty rd.terrain
  let terrainModifier := getTerrainModifier rd.terrain
  let rawScore := baseScore + terrainModifier
  let unpavedKm := getUnpavedKm rd.distanceKm rd.unpavedPct
  let cappedScore := applySurfaceCaps rawScore rd.surface rd.terrain rd.difficulty unpavedKm
  { score := jsRound (min 5 (max 1 cappedScore))
    baseScore := baseScore
    terrainModifier := terrainModifier
    surface := if rd.surface = "" then "unknown" else rd.surface
    terrain := if rd.terrain = "" then "unknown" else rd.terrain
    difficulty := if rd.difficulty = "" then "unknown" else rd.difficulty
    unpavedKm := (jsRound (unpavedKm * 10) : ℚ) / 10 }

end TechCap

namespace TechElev

/-! The elevation-ratio technical-difficulty calculator
(second module of src/unnamed/part_001). -/

/-- Source: `TERRAIN_BASE_SCORES` lookup table (keyed by the surface field). -/
def TERRAIN_BASE_SCORES (surface : String) : Option ℚ :=
  if surface = "paved" then some 1
  else if surface = "mostly_paved" then some (3/2)
  else if surface = "mixed_surfaces" then some (5/2)
  else if surface = "mostly_unpaved" then some (7/2)
  else if surface = "unknown" then some 2
  else none

/-- Source: `getTerrainBaseScore`: lookup with `|| TERRAIN_BASE_SCORES['unknown']`
fallback (all stored values are truthy). -/
def getTerrainBaseScore (surface : String) : ℚ :=
  match TERRAIN_BASE_SCORES surface with
  | some v => v
  | none => 2

/-- Source: `getElevationRatio`: metres of gain per km; 0 for non-positive distance. -/
def getElevationRatio (elevationGain distanceKm : ℚ) : ℚ :=
  if distanceKm ≤ 0 then 0 else elevationGain / distanceKm

/-- One entry of `ELEVATION_BANDS`; `maxRatio = none` models `Infinity`. -/
structure Band where
  maxRatio : Option ℚ
  stress : String
  multiplier : ℚ
deriving DecidableEq, Repr

/-- The `ELEVATION_BANDS` table. -/
def ELEVATION_BANDS : List Band :=
  [⟨some 3, "low", 1⟩, ⟨some 6, "moderate", 11/10⟩,
   ⟨some 9, "high", 5/4⟩, ⟨none, "severe", 7/5⟩]

/-- Source: `gainRatio < band.maxRatio`, with `maxRatio = Infinity` always true. -/
def ratioBelow (g : ℚ) (m : Option ℚ) : Bool :=
  match m with
  | none => true
  | some r => decide (g < r)

/-- Source: `getElevationMultiplier`: first band whose bound exceeds the ratio;
the post-loop fallback is `severe`. -/
def getElevationMultiplier (gainRatio : ℚ) : String × ℚ :=
  match ELEVATION_BANDS.find? (fun b => ratioBelow gainRatio b.maxRatio) with
  | some b => (b.stress, b.multiplier)
  | none => ("severe", 7/5)

/-- Source: `applySanityOverrides`: three overrides in source order. -/
def applySanityOverrides (rawScore : ℚ) (surface : String)
    (terrainBase gainRatio : ℚ) : ℚ :=
  let s1 := if terrainBase ≥ 4 ∧ rawScore < 3 then 3 else rawScore
  let s2 := if surface = "mostly_unpaved" ∧ gainRatio ≥ 6 ∧ s1 < 4 then 4 else s1
  if (surface = "paved" ∨ surface = "mostly_paved") ∧ s2 > 2 then 2 else s2

/-- Result record of `calculateTechnicalDifficulty` (elevation-ratio). -/
structure Result where
  score : ℤ
  terrainBase : ℚ
  elevationRatio : ℚ
  elevationStress : String
  rawScore : ℚ
deriving DecidableEq, Repr

/-- Source: `calculateTechnicalDifficulty` (elevation-ratio strategy). -/
def calculateTechnicalDifficulty (rd : RouteData) : Result :=
  let terrainBase := getTerrainBaseScore rd.surface
  let elevationRatio := getElevationRatio rd.elevationGain rd.distanceKm
  let em := getElevationMultiplier elevationRatio
  let rawScore := terrainBase * em.2
  let adjustedScore := applySanityOverrides rawScore rd.surface terrainBase elevationRatio
  { score := jsRound (min 5 (max 1 adjustedScore))
    terrainBase := terrainBase
    elevationRatio := (jsRound (elevationRatio * 10) : ℚ) / 10
    elevationStress := em.1
    rawScore := (jsRound (rawScore * 100) : ℚ) / 100 }

end TechElev

/-! ## Cache layer (cache.js) -/

/-- Fractional decimal digits of `q ∈ [0, 1)`, fuel-bounded (JS doubles
always terminate well within the bound). -/
def ratFracDigits : ℕ → ℚ → List Char
  | 0, _ => []
  | fuel + 1, q =>
    if q = 0 then []
    else
      let d : ℕ := (Rat.floor (q * 10)).toNat
      Nat.digitChar d :: ratFracDigits fuel (q * 10 - (d : ℚ))

/-- Decimal rendering of a nonnegative rational, as JS prints a number. -/
def jsNumToStringNonneg (q : ℚ) : String :=
  let ip : ℤ := Rat.floor q
  let fp : ℚ := q - (ip : ℚ)
  let intStr := toString ip.toNat
  if fp = 0 then intStr else intStr ++ "." ++ String.mk (ratFracDigits 1100 fp)

/-- JS `String(number)` / `JSON.stringify` of a (finite) number. -/
def jsNumToString (q : ℚ) : String :=
  if q < 0 then "-" ++ jsNumToStringNonneg (-q) else jsNumToStringNonneg q

/-- The base64 alphabet. -/
def base64Char (n : ℕ) : Char :=
  "ABCDEFGHIJKLMNOPQRSTUVWXYZabcdefghijklmnopqrstuvwxyz0123456789+/".toList.getD n 'A'

/-- Base64-encode a byte list (standard padding), as JS `btoa` does. -/
def b64Encode : List ℕ → List Char
  | [] => []
  | [a] => [base64Char (a / 4), base64Char (a % 4 * 16), '=', '=']
  | [a, b] =>
    [base64Char (a / 4), base64Char (a % 4 * 16 + b / 16), base64Char (b % 16 * 4), '=']
  | a :: b :: c :: rest =>
    base64Char (a / 4) :: base64Char (a % 4 * 16 + b / 16) ::
      base64Char (b % 16 * 4 + c / 64) :: base64Char (c % 64) :: b64Encode rest

/-- JS `btoa`: base64 over the string's char codes (ASCII here). -/
def btoa (s : String) : String := String.mk (b64Encode (s.toList.map Char.toNat))

/-- JS `String.prototype.slice(0, n)`. -/
def jsSlice (s : String) (n : ℕ) : String := String.mk (s.toList.take n)

/-- Source: `generateDataHash`: base64 of the JSON of the two render-affecting
fields, truncated to 16 characters. -/
def generateDataHash (rd : RouteData) : String :=
  jsSlice (btoa ("\x7b\"distance\":" ++ jsNumToString rd.distance ++
    ",\"elevationGain\":" ++ jsNumToString rd.elevationGain ++ "\x7d")) 16

/-- A rendered HTML fragment, recorded as the pure renderer's inputs:
`renderRouteStatsCard` output or `renderErrorCard` output. -/
inductive Html where
  | card : RouteData → Option JSInt → Option String → Html
  | errorCard : String → Html
deriving DecidableEq, Repr

/-- A cache entry as built by `setCachedRoute` (stored as JSON in KV; the
JSON round trip is modelled as the identity on this structure).
`lastFetched` is an epoch-millisecond timestamp; `none` models a missing or
empty `lastFetched` field. -/
structure CacheEntry where
  dataHash : String
  lastFetched : Option ℚ
  routeData : RouteData
  renderedHtml : List (String × Html)
deriving DecidableEq, Repr

/-- JS object property read (`obj[key]`), first matching key. -/
def objGet : List (String × Html) → String → Option Html
  | [], _ => none
  | (k', v') :: rest, k => if k' = k then some v' else objGet rest k

/-- JS object property write (`obj[key] = v`): replace in place, else append. -/
def objSet : List (String × Html) → String → Html → List (String × Html)
  | [], k, v => [(k, v)]
  | (k', v') :: rest, k, v =>
    if k' = k then (k, v) :: rest else (k', v') :: objSet rest k v

/-- The KV namespace restricted to the `route:` key family. -/
def KV : Type := List (String × CacheEntry)

/-- KV read of a key. -/
def kvGet (kv : KV) (key : String) : Option CacheEntry :=
  match kv with
  | [] => none
  | (k', v') :: rest => if k' = key then some v' else kvGet rest key

/-- KV write of a key (atomic single-key upsert). -/
def kvPut (kv : KV) (key : String) (e : CacheEntry) : KV :=
  match kv with
  | [] => [(key, e)]
  | (k', v') :: rest => if k' = key then (key, e) :: rest else (k', v') :: kvPut rest key e

/-- Source: `CACHE_TTL_SECONDS`: hard TTL of a route entry. -/
def CACHE_TTL_SECONDS : ℚ := 86400

/-- Source: `STALE_THRESHOLD_SECONDS`: staleness threshold for background refresh. -/
def STALE_THRESHOLD_SECONDS : ℚ := 3600

/-- Source: `getCachedRoute`: read `route:<id>` from KV. -/
def getCachedRoute (kv : KV) (routeId : String) : Option CacheEntry :=
  kvGet kv ("route:" ++ routeId)

/-- The entry object built inside `setCachedRoute`. -/
def mkEntry (now : ℚ) (routeData : RouteData) (renderedHtml : List (String × Html)) :
    CacheEntry :=
  { dataHash := generateDataHash routeData
    lastFetched := some now
    routeData := routeData
    renderedHtml := renderedHtml }

/-- Source: `setCachedRoute`: store the entry under `route:<id>`, recomputing the
hash from the attributes being stored. -/
def setCachedRoute (now : ℚ) (kv : KV) (routeId : String) (routeData : RouteData)
    (renderedHtml : List (String × Html)) : KV :=
  kvPut kv ("route:" ++ routeId) (mkEntry now routeData renderedHtml)

/-- Source: `isStale`: absent entries and entries without `lastFetched` are stale;
otherwise compare the age in seconds against the threshold. -/
def isStale (now : ℚ) (cached : Option CacheEntry) : Bool :=
  match cached with
  | none => true
  | some c =>
    match c.lastFetched with
    | none => true
    | some t => decide ((now - t) / 1000 > STALE_THRESHOLD_SECONDS)

/-- Source: `hasDataChanged`: missing entry or falsy stored hash counts as changed;
otherwise compare hashes. -/
def hasDataChanged (cached : Option CacheEntry) (fresh : RouteData) : Bool :=
  match cached with
  | none => true
  | some c => if c.dataHash = "" then true else decide (c.dataHash ≠ generateDataHash fresh)

/-- The level component of the variant key (`level || 'none'`). -/
def levelPart (level : Option String) : String :=
  match level with
  | none => "none"
  | some s => if s = "" then "none" else s

/-- The stars component of the variant key (`stars !== null ? stars : 'none'`,
interpolated). -/
def starsPart (stars : Option JSInt) : String :=
  match stars with
  | none => "none"
  | some j => jsIntToString j

/-- Source: `getHtmlCacheKey`: render-variant key from stars and level. -/
def getHtmlCacheKey (stars : Option JSInt) (level : Option String) : String :=
  "stars_" ++ starsPart stars ++ "_level_" ++ levelPart level

/-- Source: `getCachedHtml`: look up the variant for a stars/level pair. -/
def getCachedHtml (cached : Option CacheEntry) (stars : Option JSInt)
    (level : Option String) : Option Html :=
  match cached with
  | none => none
  | some c => objGet c.renderedHtml (getHtmlCacheKey stars level)

/-- Source: `updateCachedHtml`: merge one variant into the entry. -/
def updateCachedHtml (cached : CacheEntry) (stars : Option JSInt)
    (level : Option String) (html : Html) : CacheEntry :=
  { cached with renderedHtml := objSet cached.renderedHtml (getHtmlCacheKey stars level) html }

/-! ## Worker request handling (index.js) -/

/-- Observable side effects of a request, in program order.  A
`scheduleRevalidation` effect is a fire-and-forget `ctx.waitUntil` of
`revalidateCache`; a `cacheWrite` records the entry passed to `kv.put`. -/
inductive Effect where
  | cacheDelete : String → Effect
  | cacheRead : String → Effect
  | upstreamFetch : String → Effect
  | cacheWrite : String → CacheEntry → Effect
  | scheduleRevalidation : String → Option JSInt → Option String → Effect
deriving DecidableEq, Repr

/-- Response body: JSON error object or HTML fragment. -/
inductive RespBody where
  | json : String → RespBody
  | html : Html → RespBody
deriving DecidableEq, Repr

/-- An HTTP response: status, body, and the optional X-Data-Hash header. -/
structure Resp where
  status : ℕ
  body : RespBody
  dataHash : Option String
deriving DecidableEq, Repr

/-- Source: `errorResponse`: JSON `\x7b "error": message \x7d` with the given status. -/
def errorResponse (msg : String) (status : ℕ) : Resp :=
  { status := status, body := RespBody.json msg, dataHash := none }

/-- Source: `htmlResponse`: 200 with an X-Data-Hash header. -/
def htmlResponse (h : Html) (hash : String) : Resp :=
  { status := 200, body := RespBody.html h, dataHash := some hash }

/-- The catch-all error card response (`error.message || fallback`, 200). -/
def errorCardResponse (msg : String) : Resp :=
  { status := 200
    body := RespBody.html (Html.errorCard (if msg = "" then "Failed to load route data" else msg))
    dataHash := none }

/-- Oracle for the two asynchronous calls a single request can make:
the KV read (which may reject) and the upstream fetch (which may throw). -/
structure WorkerEnv where
  kvResult : Except String (Option CacheEntry)
  fetchResult : Except String RouteData

/-- Source: `revalidateCache`: background refresh.  Fetches fresh data; on a hash
change re-renders the triggering variant and rewrites the entry via
`setCachedRoute`; otherwise, and on fetch failure, writes nothing. -/
def revalidateCache (now : ℚ) (routeId : String) (stars : Option JSInt)
    (level : Option String) (fetchResult : Except String RouteData)
    (cached : CacheEntry) : List Effect :=
  match fetchResult with
  | Except.error _ => [Effect.upstreamFetch routeId]
  | Except.ok fresh =>
    if hasDataChanged (some cached) fresh then
      let html := Html.card fresh stars level
      let updated := updateCachedHtml
        { cached with routeData := fresh, dataHash := generateDataHash fresh }
        stars level html
      [Effect.upstreamFetch routeId,
       Effect.cacheWrite ("route:" ++ routeId) (mkEntry now fresh updated.renderedHtml)]
    else [Effect.upstreamFetch routeId]

/-- The stars validation test `stars !== null && (stars < 1 || stars > 5)`;
note that comparisons against `NaN` are both false in JS, so a `NaN` value
passes the check. -/
def starsInvalidCheck (stars : Option JSInt) : Bool :=
  match stars with
  | none => false
  | some JSInt.nan => false
  | some (JSInt.val n) => decide (n < 1) || decide (n > 5)

/-- Source: `handleRouteStats` on the GET path: parameter parsing and validation,
purge, cache lookup, variant rendering, miss handling, and the catch-all
error card.  Returns the response and the effects in program order. -/
def handleRouteStats (now : ℚ) (env : WorkerEnv)
    (idP starsP levelP purgeP : Option String) : Resp × List Effect :=
  let stars : Option JSInt := (jsStrOpt starsP).map parseInt10
  let level : Option String := jsStrOpt levelP
  let purge : Bool := purgeP = some "true"
  match jsStrOpt idP with
  | none => (errorResponse "Missing required parameter: id" 400, [])
  | some routeId =>
    if starsInvalidCheck stars then
      (errorResponse "Invalid parameter: stars (must be 1-5)" 400, [])
    else
      let key := "route:" ++ routeId
      let purgeEffects := if purge then [Effect.cacheDelete key] else []
      let readEffects := if purge then [] else [Effect.cacheRead key]
      let cachedRes : Except String (Option CacheEntry) :=
        if purge then Except.ok none else env.kvResult
      match cachedRes with
      | Except.error e => (errorCardResponse e, purgeEffects ++ readEffects)
      | Except.ok (some cached) =>
        match objGet cached.renderedHtml (getHtmlCacheKey stars level) with
        | some cachedHtml =>
          let revalEffects :=
            if isStale now (some cached) then [Effect.scheduleRevalidation routeId stars level]
            else []
          (htmlResponse cachedHtml cached.dataHash, purgeEffects ++ readEffects ++ revalEffects)
        | none =>
          let html := Html.card cached.routeData stars level
          let updated := updateCachedHtml cached stars level html
          let writeEffects :=
            [Effect.cacheWrite key (mkEntry now cached.routeData updated.renderedHtml)]
          let revalEffects :=
            if isStale now (some cached) then [Effect.scheduleRevalidation routeId stars level]
            else []
          (htmlResponse html cached.dataHash,
           purgeEffects ++ readEffects ++ writeEffects ++ revalEffects)
      | Except.ok none =>
        match env.fetchResult with
        | Except.error e =>
          (errorCardResponse e, purgeEffects ++ readEffects ++ [Effect.upstreamFetch routeId])
        | Except.ok routeData =>
          let html := Html.card routeData stars level
          let dataHash := generateDataHash routeData
          let cacheKey := "stars_" ++ starsPart stars ++ "_level_" ++ levelPart level
          (htmlResponse html dataHash,
           purgeEffects ++ readEffects ++
             [Effect.upstreamFetch routeId,
              Effect.cacheWrite key (mkEntry now routeData [(cacheKey, html)])])

/-! ## Upstream pagination (rwgps.js `fetchClubRoutes`) -/

namespace Rwgps

/-- One route summary as it appears in an upstream routes page. -/
structure RouteSummary where
  id : ℤ
  name : String
deriving DecidableEq, Repr

/-- Pagination metadata (`data.meta?.pagination`). -/
structure Pagination where
  next_page_url : Option String
deriving DecidableEq, Repr

/-- One parsed upstream page: `data.routes || []` and optional pagination. -/
structure Page where
  routes : List RouteSummary
  pagination : Option Pagination
deriving DecidableEq, Repr

/-- Source: `pageSize`: the requested page size (max allowed by the API). -/
def pageSize : ℕ := 200

/-- The loop's break condition:
`!pagination || !pagination.next_page_url || routes.length < pageSize`
(an empty `next_page_url` string is falsy). -/
def stopCond (p : Page) : Bool :=
  match p.pagination with
  | none => true
  | some pg =>
    match pg.next_page_url with
    | none => true
    | some u => u = "" || decide (p.routes.length < pageSize)

/-- The `(id, name)` pairs pushed onto `allRoutes` for one page. -/
def extractRoutes (p : Page) : List RouteSummary :=
  p.routes.map (fun r => { id := r.id, name := r.name })

/-- The `while (true)` pagination loop of `fetchClubRoutes`, with explicit
fuel: `none` models non-termination within the given fuel, an upstream
non-success status propagates as an error. -/
def fetchLoop (upstream : ℕ → Except String Page) : ℕ → ℕ → Option (Except String (List RouteSummary))
  | 0, _ => none
  | fuel + 1, page =>
    match upstream page with
    | Except.error e => some (Except.error e)
    | Except.ok p =>
      let rs := extractRoutes p
      if stopCond p then some (Except.ok rs)
      else
        match fetchLoop upstream fuel (page + 1) with
        | none => none
        | some (Except.error e) => some (Except.error e)
        | some (Except.ok rest) => some (Except.ok (rs ++ rest))

/-- Source: `fetchClubRoutes`, starting at page 1. -/
def fetchClubRoutes (upstream : ℕ → Except String Page) (fuel : ℕ) :
    Option (Except String (List RouteSummary)) :=
  fetchLoop upstream fuel 1

end Rwgps

/-! ## Concrete instances used by witness and counterexample theorems -/

/-- Scenario B input: surface=paved, terrain=climbing, difficulty=hard. -/
def scenarioB : RouteData :=
  ⟨2, "Scenario B", 50000, 50, 800, 700, 0, 100, "paved", "climbing", "hard", "route"⟩

/-- Two records with equal distance/elevationGain but different name,
surface, terrain, and difficulty. -/
def rdHashA : RouteData :=
  ⟨1, "Alpha", 42000, 42, 500, 480, 10, 90, "paved", "flat", "easy", "route"⟩

/-- Same distance and elevationGain as `rdHashA`, all else different. -/
def rdHashB : RouteData :=
  ⟨2, "Beta", 42000, 42, 500, 470, 80, 20, "mostly_unpaved", "climbing", "hard", "trip"⟩

/-- A concrete entry holding one unrelated variant. -/
def entryC8 : CacheEntry :=
  { dataHash := "h"
    lastFetched := some 0
    routeData := rdHashA
    renderedHtml := [("stars_3_level_Explorer", Html.errorCard "old")] }

/-- An entry without a lastFetched timestamp. -/
def entryNoTs : CacheEntry :=
  { dataHash := "h", lastFetched := none, routeData := rdHashA, renderedHtml := [] }

/-- An entry fetched at epoch time 0. -/
def entryOld : CacheEntry :=
  { dataHash := "h", lastFetched := some 0, routeData := rdHashA, renderedHtml := [] }

/-- The environment of a clean miss: empty cache, successful upstream. -/
def envMiss : WorkerEnv := ⟨Except.ok none, Except.ok rdHashA⟩

/-- The entry written on the miss path of the C5 witness request. -/
def entW : CacheEntry :=
  mkEntry 0 rdHashA [("stars_none_level_none", Html.card rdHashA none none)]

/-- An entry whose stored hash matches a fresh fetch of `rdHashA`. -/
def entryEq : CacheEntry :=
  { dataHash := generateDataHash rdHashA
    lastFetched := some 0
    routeData := rdHashA
    renderedHtml := [("stars_none_level_none", Html.card rdHashA none none)] }

/-- An entry whose stored hash cannot match any fresh fetch. -/
def entryEmptyHash : CacheEntry :=
  { dataHash := ""
    lastFetched := some 0
    routeData := rdHashB
    renderedHtml := [("stars_3_level_Explorer", Html.errorCard "old")] }

/-- The environment of a failing KV read with a healthy upstream. -/
def envKvFail : WorkerEnv := ⟨Except.error "KV read failed", Except.ok rdHashA⟩

/-- Concatenation, in page order, of the (id, name) pairs of pages
`start, start+1, ..., start+k-1`. -/
def Rwgps.pagesConcat (P : ℕ → Rwgps.Page) (start : ℕ) : ℕ → List Rwgps.RouteSummary
  | 0 => []
  | k + 1 => Rwgps.extractRoutes (P start) ++ Rwgps.pagesConcat P (start + 1) k

/-- A single short page with no pagination metadata. -/
def Rwgps.pageShort : Rwgps.Page := ⟨[⟨5, "Loop"⟩], none⟩

/-- An upstream that always serves the short page. -/
def Rwgps.upstreamShort : ℕ → Except String Rwgps.Page := fun _ => Except.ok Rwgps.pageShort

/-! ## Theorems -/

/-- The clamp-then-round step shared by both strategies lands in `[1, 5]`. -/
theorem jsRound_clamp_mem (x : ℚ) :
    1 ≤ jsRound (min 5 (max 1 x)) ∧ jsRound (min 5 (max 1 x)) ≤ 5 := by
  have h1 : (1 : ℚ) ≤ min 5 (max 1 x) := le_min (by norm_num) (le_max_left 1 x)
  have h2 : min 5 (max 1 x) ≤ 5 := min_le_left 5 (max 1 x)
  constructor
  · exact Int.le_floor.mpr (by push_cast; linarith)
  · have : jsRound (min 5 (max 1 x)) < 6 := by
      apply Int.floor_lt.mpr
      push_cast
      linarith
    omega

theorem TechCap.one_le_getBaseScore (d t : String) : 1 ≤ TechCap.getBaseScore d t := by
  unfold TechCap.getBaseScore TechCap.DIFFICULTY_BASE_SCORES
  split_ifs <;> norm_num

theorem TechCap.getTerrainModifier_nonneg (t : String) : 0 ≤ TechCap.getTerrainModifier t := by
  unfold TechCap.getTerrainModifier TechCap.TERRAIN_MODIFIERS
  split_ifs <;> norm_num

theorem objGet_objSet_self (m : List (String × Html)) (k : String) (v : Html) :
    objGet (objSet m k v) k = some v := by
  induction m with
  | nil => simp [objSet, objGet]
  | cons hd tl ih =>
    obtain ⟨k', v'⟩ := hd
    by_cases h : k' = k <;> simp [objSet, objGet, h, ih]

theorem objGet_objSet_ne (m : List (String × Html)) (k : String) (v : Html)
    (k'' : String) (h : k'' ≠ k) : objGet (objSet m k v) k'' = objGet m k'' := by
  have hk : ¬ k = k'' := fun hh => h hh.symm
  induction m with
  | nil => simp [objSet, objGet, hk]
  | cons hd tl ih =>
    obtain ⟨k', v'⟩ := hd
    by_cases h1 : k' = k
    · subst h1
      simp [objSet, objGet, hk]
    · by_cases h2 : k' = k'' <;> simp [objSet, objGet, h, h1, h2, ih]

theorem objSet_objSet_self (m : List (String × Html)) (k : String) (v : Html) :
    objSet (objSet m k v) k v = objSet m k v := by
  induction m with
  | nil => simp [objSet]
  | cons hd tl ih =>
    obtain ⟨k', v'⟩ := hd
    by_cases h : k' = k <;> simp [objSet, h, ih]

theorem kvGet_kvPut_self (kv : KV) (key : String) (e : CacheEntry) :
    kvGet (kvPut kv key e) key = some e := by
  induction kv with
  | nil => simp [kvPut, kvGet]
  | cons hd tl ih =>
    obtain ⟨k', v'⟩ := hd
    by_cases h : k' = key <;> simp [kvPut, kvGet, h, ih]

theorem b64Encode_cons_exists (a : ℕ) (l : List ℕ) : ∃ c cs, b64Encode (a :: l) = c :: cs := by
  rcases l with _ | ⟨b, l⟩
  · exact ⟨_, _, rfl⟩
  · rcases l with _ | ⟨c, l⟩
    · exact ⟨_, _, rfl⟩
    · exact ⟨_, _, rfl⟩

theorem jsSlice_btoa_ne_empty (s : String) (c : Char) (l : List Char)
    (h : s.data = c :: l) : jsSlice (btoa s) 16 ≠ "" := by
  have hs : s.toList = c :: l := h
  unfold jsSlice btoa
  rw [show (String.mk (b64Encode (s.toList.map Char.toNat))).toList
      = b64Encode (s.toList.map Char.toNat) from rfl, hs]
  simp only [List.map_cons]
  obtain ⟨c', cs, hb⟩ := b64Encode_cons_exists c.toNat (l.map Char.toNat)
  rw [hb]
  simp [String.ext_iff]

theorem generateDataHash_ne_empty (rd : RouteData) : generateDataHash rd ≠ "" := by
  have hlit : ("\x7b\"distance\":" : String).data = '\x7b' :: ("\"distance\":" : String).data := by
    decide
  have hdata : ("\x7b\"distance\":" ++ jsNumToString rd.distance ++
      ",\"elevationGain\":" ++ jsNumToString rd.elevationGain ++ "\x7d").data =
      '\x7b' :: (((((("\"distance\":" : String).data ++ (jsNumToString rd.distance).data) ++
        (",\"elevationGain\":" : String).data) ++ (jsNumToString rd.elevationGain).data) ++
          ("\x7d" : String).data)) := by
    simp only [String.data_append, hlit, List.cons_append]
  exact jsSlice_btoa_ne_empty _ '\x7b' _ hdata

theorem Rwgps.fetchLoop_spec (upstream : ℕ → Except String Rwgps.Page)
    (P : ℕ → Rwgps.Page) :
    ∀ (k start : ℕ),
      (∀ i, start ≤ i → i ≤ start + k → upstream i = Except.ok (P i)) →
      (∀ i, start ≤ i → i < start + k → Rwgps.stopCond (P i) = false) →
      Rwgps.stopCond (P (start + k)) = true →
      Rwgps.fetchLoop upstream (k + 1) start
        = some (Except.ok (Rwgps.pagesConcat P start (k + 1))) := by
  intro k
  induction k with
  | zero =>
    intro start hok hnostop hstop
    have h1 : upstream start = Except.ok (P start) := hok start le_rfl (by omega)
    rw [Nat.add_zero] at hstop
    simp [Rwgps.fetchLoop, h1, hstop, Rwgps.pagesConcat]
  | succ k ih =>
    intro start hok hnostop hstop
    have h1 : upstream start = Except.ok (P start) := hok start le_rfl (by omega)
    have h2 : Rwgps.stopCond (P start) = false := hnostop start le_rfl (by omega)
    have hrec := ih (start + 1) (fun i hi1 hi2 => hok i (by omega) (by omega))
      (fun i hi1 hi2 => hnostop i (by omega) (by omega))
      (by rw [show start + 1 + k = start + (k + 1) from by omega]; exact hstop)
    rw [Rwgps.fetchLoop]
    simp [h1, h2, hrec, Rwgps.pagesConcat]

/-- C1: for every RouteAttributes input — any distance, elevation gain, and
categorical field values, including all-unknown categorical fields — both the
categorical-cap and the elevation-ratio `calculateTechnicalDifficulty`
return a score that is an integer (the `score` field has type `ℤ`) in
`[1, 5]`: both strategies satisfy the same contract. -/
theorem claim_C1_score_in_range (rd : RouteData) :
    (1 ≤ (TechCap.calculateTechnicalDifficulty rd).score
      ∧ (TechCap.calculateTechnicalDifficulty rd).score ≤ 5)
    ∧ (1 ≤ (TechElev.calculateTechnicalDifficulty rd).score
      ∧ (TechElev.calculateTechnicalDifficulty rd).score ≤ 5) :=
  ⟨jsRound_clamp_mem _, jsRound_clamp_mem _⟩

/-- C2: for every RouteAttributes with surface `paved`, the categorical-cap
strategy returns score 1 regardless of every other field; and the concrete
Scenario B input (paved, climbing, hard) has base 4, modifier +1 (raw 5),
and final score 1. -/
theorem claim_C2_paved_score_one :
    (∀ rd : RouteData, rd.surface = "paved" →
      (TechCap.calculateTechnicalDifficulty rd).score = 1)
    ∧ ((TechCap.calculateTechnicalDifficulty scenarioB).baseScore = 4
      ∧ (TechCap.calculateTechnicalDifficulty scenarioB).terrainModifier = 1
      ∧ (TechCap.calculateTechnicalDifficulty scenarioB).baseScore
          + (TechCap.calculateTechnicalDifficulty scenarioB).terrainModifier = 5
      ∧ (TechCap.calculateTechnicalDifficulty scenarioB).score = 1) := by
  constructor
  · intro rd h
    have hbase : 1 ≤ TechCap.getBaseScore rd.difficulty rd.terrain :=
      TechCap.one_le_getBaseScore _ _
    have hmod : 0 ≤ TechCap.getTerrainModifier rd.terrain :=
      TechCap.getTerrainModifier_nonneg _
    show jsRound (min 5 (max 1 (TechCap.applySurfaceCaps _ rd.surface _ _ _))) = 1
    rw [h]
    unfold TechCap.applySurfaceCaps
    simp only [if_true, if_pos rfl]
    have h1 : min (TechCap.getBaseScore rd.difficulty rd.terrain
        + TechCap.getTerrainModifier rd.terrain) 1 = 1 :=
      min_eq_right (by linarith)
    rw [h1]
    norm_num [jsRound, Int.floor_eq_iff]
  · refine ⟨?_, ?_, ?_, ?_⟩ <;>
      simp [TechCap.calculateTechnicalDifficulty, TechCap.getBaseScore,
        TechCap.DIFFICULTY_BASE_SCORES, TechCap.getTerrainModifier, TechCap.TERRAIN_MODIFIERS,
        TechCap.getUnpavedKm, TechCap.applySurfaceCaps, scenarioB, jsRound] <;>
      norm_num [Int.floor_eq_iff]

/-- Witness for C2: the universally quantified part applied to Scenario B. -/
theorem claim_C2_witness : (TechCap.calculateTechnicalDifficulty scenarioB).score = 1 :=
  claim_C2_paved_score_one.1 scenarioB rfl

/-- Counterexample for C3: `stars=abc` is not a numeral, so `parseInt`
yields `NaN`; both `NaN < 1` and `NaN > 5` are false in JS, so validation
passes and the request is served (status 200) after a cache read — not
rejected with 400 and not effect-free, contradicting the claim. -/
theorem claim_C3_counterexample :
    (handleRouteStats 0 envMiss (some "123") (some "abc") none none).1.status = 200
    ∧ Effect.cacheRead "route:123"
        ∈ (handleRouteStats 0 envMiss (some "123") (some "abc") none none).2 := by
  have hp : parseInt10 "abc" = JSInt.nan := by decide
  constructor <;>
    simp [handleRouteStats, envMiss, jsStrOpt, hp, starsInvalidCheck, htmlResponse]

/-- C3 (amended): a request with `id` absent (or empty), or whose `stars`
parameter parses via `parseInt` to an integer outside `[1, 5]`, receives a
400 response with a JSON error body and performs no effect at all (no cache
read, no upstream fetch).  Non-numeral `stars` values parse to `NaN` and
pass validation, so they are not rejected. -/
theorem claim_C3_validation_rejects (now : ℚ) (env : WorkerEnv)
    (idP starsP levelP purgeP : Option String)
    (h : jsStrOpt idP = none
      ∨ ∃ n : ℤ, (jsStrOpt starsP).map parseInt10 = some (JSInt.val n) ∧ (n < 1 ∨ 5 < n)) :
    (handleRouteStats now env idP starsP levelP purgeP).1.status = 400
    ∧ (∃ msg, (handleRouteStats now env idP starsP levelP purgeP).1.body = RespBody.json msg)
    ∧ (handleRouteStats now env idP starsP levelP purgeP).2 = [] := by
  rcases h with h | ⟨n, hn, hout⟩
  · simp [handleRouteStats, h, errorResponse]
  · rcases hid : jsStrOpt idP with _ | rid
    · simp [handleRouteStats, hid, errorResponse]
    · have hinv : starsInvalidCheck ((jsStrOpt starsP).map parseInt10) = true := by
        rw [hn]
        unfold starsInvalidCheck
        rcases hout with h1 | h1 <;> simp [h1]
      simp [handleRouteStats, hid, hinv, errorResponse]

/-- Witness for C3 (amended): a request with no id is rejected with 400,
a JSON body, and an empty effect list. -/
theorem claim_C3_witness :
    (handleRouteStats 0 envMiss none (some "3") none none).1.status = 400
    ∧ (∃ msg, (handleRouteStats 0 envMiss none (some "3") none none).1.body = RespBody.json msg)
    ∧ (handleRouteStats 0 envMiss none (some "3") none none).2 = [] :=
  claim_C3_validation_rejects 0 envMiss none (some "3") none none (Or.inl rfl)

/-- Counterexample for C4: when the cache read rejects, the handler's
top-level catch returns the 200 error-card fragment built from the failure
message and performs no upstream fetch — it does not fall through to a
fresh fetch and does not respond with a card rendered from fetched
attributes, contradicting the claim. -/
theorem claim_C4_counterexample :
    (handleRouteStats 0 envKvFail (some "123") none none none).1.body
        = RespBody.html (Html.errorCard "KV read failed")
    ∧ (handleRouteStats 0 envKvFail (some "123") none none none).1.status = 200
    ∧ Effect.upstreamFetch "123"
        ∉ (handleRouteStats 0 envKvFail (some "123") none none none).2 := by
  refine ⟨?_, ?_, ?_⟩ <;>
    simp [handleRouteStats, envKvFail, jsStrOpt, starsInvalidCheck, errorCardResponse]

/-- C4 (amended): on a validated, non-purge request, a failure of the cache
read is caught by the handler's catch-all: the response is the 200
error-card fragment carrying the failure message, the only effect is the
cache read itself, and in particular no upstream fetch happens — the
failure is not treated as a cache miss. -/
theorem claim_C4_read_failure_yields_error_card (now : ℚ) (env : WorkerEnv)
    (idP starsP levelP purgeP : Option String) (routeId msg : String)
    (hid : jsStrOpt idP = some routeId)
    (hstars : ∀ n : ℤ, (jsStrOpt starsP).map parseInt10 = some (JSInt.val n) → 1 ≤ n ∧ n ≤ 5)
    (hpurge : purgeP ≠ some "true")
    (hkv : env.kvResult = Except.error msg) :
    handleRouteStats now env idP starsP levelP purgeP
      = (errorCardResponse msg, [Effect.cacheRead ("route:" ++ routeId)])
    ∧ Effect.upstreamFetch routeId ∉ (handleRouteStats now env idP starsP levelP purgeP).2 := by
  have hsi : starsInvalidCheck ((jsStrOpt starsP).map parseInt10) = false := by
    unfold starsInvalidCheck
    rcases hst : (jsStrOpt starsP).map parseInt10 with _ | j
    · rfl
    · rcases j with _ | n
      · rfl
      · obtain ⟨h1, h2⟩ := hstars n hst
        simp
        omega
  have hmain : handleRouteStats now env idP starsP levelP purgeP
      = (errorCardResponse msg, [Effect.cacheRead ("route:" ++ routeId)]) := by
    simp [handleRouteStats, hid, hsi, hpurge, hkv]
  refine ⟨hmain, ?_⟩
  rw [hmain]
  simp

/-- Witness for C4 (amended): the concrete failing-read request yields the
error card and exactly one cache-read effect. -/
theorem claim_C4_witness :
    handleRouteStats 0 envKvFail (some "9") none none none
      = (errorCardResponse "KV read failed", [Effect.cacheRead ("route:" ++ "9")])
    ∧ Effect.upstreamFetch "9" ∉ (handleRouteStats 0 envKvFail (some "9") none none none).2 :=
  claim_C4_read_failure_yields_error_card 0 envKvFail (some "9") none none none "9"
    "KV read failed" rfl (fun n h => by simp [jsStrOpt] at h) (by simp) rfl

/-- C5: every entry written by `setCachedRoute` carries
`dataHash = generateDataHash` of the routeData stored alongside it, a put
followed by a get returns exactly the stored entry with a consistent hash,
and every cache write issued by the request handler (miss path and
variant-update path) and by the background revalidation path satisfies the
same hash invariant. -/
theorem claim_C5_stored_hash_consistent :
    (∀ (now : ℚ) (kv : KV) (routeId : String) (rd : RouteData)
        (variants : List (String × Html)),
      getCachedRoute (setCachedRoute now kv routeId rd variants) routeId
          = some (mkEntry now rd variants)
        ∧ (mkEntry now rd variants).dataHash
            = generateDataHash ((mkEntry now rd variants).routeData))
    ∧ (∀ (now : ℚ) (env : WorkerEnv) (idP starsP levelP purgeP : Option String)
        (key : String) (e : CacheEntry),
      Effect.cacheWrite key e ∈ (handleRouteStats now env idP starsP levelP purgeP).2 →
        e.dataHash = generateDataHash e.routeData)
    ∧ (∀ (now : ℚ) (routeId : String) (stars : Option JSInt) (level : Option String)
        (fr : Except String RouteData) (cached : CacheEntry) (key : String) (e : CacheEntry),
      Effect.cacheWrite key e ∈ revalidateCache now routeId stars level fr cached →
        e.dataHash = generateDataHash e.routeData) := by
  refine ⟨?_, ?_, ?_⟩
  · intro now kv routeId rd variants
    exact ⟨kvGet_kvPut_self kv _ _, rfl⟩
  · intro now env idP starsP levelP purgeP key e h
    simp only [handleRouteStats] at h
    split at h
    · simp at h
    · split at h
      · simp at h
      · split at h
        · split at h <;> simp at h
        · split at h
          · split at h <;> split at h <;> simp at h
          · split at h <;> split at h <;> simp at h <;>
              obtain ⟨-, rfl⟩ := h <;> rfl
        · split at h
          · split at h <;> simp at h
          · split at h <;> simp at h <;>
              obtain ⟨-, rfl⟩ := h <;> rfl
  · intro now routeId stars level fr cached key e h
    unfold revalidateCache at h
    split at h
    · simp at h
    · split at h
      · simp at h
        obtain ⟨-, rfl⟩ := h
        rfl
      · simp at h

/-- Witness for C5: the miss path of a concrete request writes `entW`, and
the theorem instantiates to its hash invariant; the put/get round trip is
instantiated concretely as well. -/
theorem claim_C5_witness :
    (getCachedRoute (setCachedRoute 0 [] "9" rdHashA []) "9" = some (mkEntry 0 rdHashA []))
    ∧ Effect.cacheWrite "route:9" entW ∈ (handleRouteStats 0 envMiss (some "9") none none none).2
    ∧ entW.dataHash = generateDataHash entW.routeData := by
  have hmem : Effect.cacheWrite "route:9" entW
      ∈ (handleRouteStats 0 envMiss (some "9") none none none).2 := by
    simp [handleRouteStats, envMiss, jsStrOpt, starsInvalidCheck, starsPart, levelPart,
      entW, mkEntry]
  exact ⟨(claim_C5_stored_hash_consistent.1 0 [] "9" rdHashA []).1, hmem,
    claim_C5_stored_hash_consistent.2.1 0 envMiss (some "9") none none none "route:9" entW hmem⟩

/-- C6: on the background revalidation path with a successful fetch, an
unchanged content hash produces no cache write at all (the stored entry and
all its variants are untouched), while a changed hash produces exactly one
write whose entry has the fresh attributes, the fresh hash, the re-rendered
HTML under the triggering variant key, and all other variants unchanged. -/
theorem claim_C6_revalidate_frame (now : ℚ) (routeId : String) (stars : Option JSInt)
    (level : Option String) (fresh : RouteData) (cached : CacheEntry) :
    (generateDataHash fresh = cached.dataHash →
      revalidateCache now routeId stars level (Except.ok fresh) cached
        = [Effect.upstreamFetch routeId])
    ∧ (generateDataHash fresh ≠ cached.dataHash →
      ∃ e, revalidateCache now routeId stars level (Except.ok fresh) cached
          = [Effect.upstreamFetch routeId, Effect.cacheWrite ("route:" ++ routeId) e]
        ∧ e.routeData = fresh
        ∧ e.dataHash = generateDataHash fresh
        ∧ objGet e.renderedHtml (getHtmlCacheKey stars level)
            = some (Html.card fresh stars level)
        ∧ ∀ k, k ≠ getHtmlCacheKey stars level →
            objGet e.renderedHtml k = objGet cached.renderedHtml k) := by
  constructor
  · intro h
    have hne : cached.dataHash ≠ "" := by
      rw [← h]
      exact generateDataHash_ne_empty fresh
    simp [revalidateCache, hasDataChanged, hne, h]
  · intro h
    have hch : hasDataChanged (some cached) fresh = true := by
      by_cases he : cached.dataHash = "" <;> simp [hasDataChanged, he]
      exact fun hh => h hh.symm
    refine ⟨mkEntry now fresh (objSet cached.renderedHtml (getHtmlCacheKey stars level)
        (Html.card fresh stars level)), ?_, rfl, rfl, objGet_objSet_self _ _ _,
      fun k hk => objGet_objSet_ne _ _ _ _ hk⟩
    simp [revalidateCache, hch, updateCachedHtml, mkEntry]

/-- Witness for C6: an unchanged hash triggers no write for a concrete
entry; a differing hash triggers the single described write. -/
theorem claim_C6_witness :
    (revalidateCache 0 "9" none none (Except.ok rdHashA) entryEq
      = [Effect.upstreamFetch "9"])
    ∧ ∃ e, revalidateCache 0 "9" none none (Except.ok rdHashA) entryEmptyHash
        = [Effect.upstreamFetch "9", Effect.cacheWrite ("route:" ++ "9") e]
      ∧ e.routeData = rdHashA
      ∧ e.dataHash = generateDataHash rdHashA
      ∧ objGet e.renderedHtml (getHtmlCacheKey none none)
          = some (Html.card rdHashA none none)
      ∧ ∀ k, k ≠ getHtmlCacheKey none none →
          objGet e.renderedHtml k = objGet entryEmptyHash.renderedHtml k :=
  ⟨(claim_C6_revalidate_frame 0 "9" none none rdHashA entryEq).1 rfl,
   (claim_C6_revalidate_frame 0 "9" none none rdHashA entryEmptyHash).2
     (generateDataHash_ne_empty rdHashA)⟩

/-- C7: `generateDataHash` depends only on distance and elevationGain — two
route-data records agreeing on those two fields hash identically, whatever
their other fields are. -/
theorem claim_C7_hash_depends_only_on_distance_elevation (a b : RouteData)
    (h1 : a.distance = b.distance) (h2 : a.elevationGain = b.elevationGain) :
    generateDataHash a = generateDataHash b := by
  unfold generateDataHash
  rw [h1, h2]

/-- Witness for C7 at two concrete records differing in every
non-hashed field. -/
theorem claim_C7_witness : generateDataHash rdHashA = generateDataHash rdHashB :=
  claim_C7_hash_depends_only_on_distance_elevation rdHashA rdHashB rfl rfl

/-- C8: `updateCachedHtml` is idempotent and non-destructive — after a second
identical application the variant map is unchanged, the derived key maps to
the given html, and every other key keeps its original value. -/
theorem claim_C8_updateCachedHtml_idempotent (cached : CacheEntry)
    (stars : Option JSInt) (level : Option String) (html : Html) :
    (updateCachedHtml (updateCachedHtml cached stars level html) stars level html).renderedHtml
      = (updateCachedHtml cached stars level html).renderedHtml
    ∧ objGet (updateCachedHtml (updateCachedHtml cached stars level html) stars
        level html).renderedHtml (getHtmlCacheKey stars level) = some html
    ∧ ∀ k, k ≠ getHtmlCacheKey stars level →
        objGet (updateCachedHtml (updateCachedHtml cached stars level html) stars
          level html).renderedHtml k = objGet cached.renderedHtml k := by
  refine ⟨?_, ?_, ?_⟩
  · simp [updateCachedHtml, objSet_objSet_self]
  · simp [updateCachedHtml, objSet_objSet_self, objGet_objSet_self]
  · intro k hk
    simp only [updateCachedHtml, objSet_objSet_self]
    exact objGet_objSet_ne _ _ _ _ hk

/-- Witness for C8 at a concrete entry, with the pre-existing unrelated
variant surviving both applications. -/
theorem claim_C8_witness :
    (updateCachedHtml (updateCachedHtml entryC8 (some (JSInt.val 4)) none (Html.errorCard "new"))
        (some (JSInt.val 4)) none (Html.errorCard "new")).renderedHtml
      = (updateCachedHtml entryC8 (some (JSInt.val 4)) none (Html.errorCard "new")).renderedHtml
    ∧ objGet (updateCachedHtml (updateCachedHtml entryC8 (some (JSInt.val 4)) none
        (Html.errorCard "new")) (some (JSInt.val 4)) none (Html.errorCard "new")).renderedHtml
        "stars_3_level_Explorer" = objGet entryC8.renderedHtml "stars_3_level_Explorer" :=
  ⟨(claim_C8_updateCachedHtml_idempotent entryC8 (some (JSInt.val 4)) none
      (Html.errorCard "new")).1,
   (claim_C8_updateCachedHtml_idempotent entryC8 (some (JSInt.val 4)) none
      (Html.errorCard "new")).2.2 "stars_3_level_Explorer" (by decide)⟩

/-- C9: if the upstream serves pages 1..n successfully and page n is the
first page that is short (fewer than 200 results), has no pagination
metadata, or has a falsy next-page link, then `fetchClubRoutes` terminates
(fuel n suffices) and returns the concatenation, in page order, of the
(id, name) pairs of all n fetched pages. -/
theorem claim_C9_pagination_terminates (upstream : ℕ → Except String Rwgps.Page)
    (P : ℕ → Rwgps.Page) (n : ℕ) (hn : 1 ≤ n)
    (hok : ∀ i, 1 ≤ i → i ≤ n → upstream i = Except.ok (P i))
    (hnostop : ∀ i, 1 ≤ i → i < n → Rwgps.stopCond (P i) = false)
    (hstop : Rwgps.stopCond (P n) = true) :
    Rwgps.fetchClubRoutes upstream n = some (Except.ok (Rwgps.pagesConcat P 1 n)) := by
  obtain ⟨k, rfl⟩ : ∃ k, n = k + 1 := ⟨n - 1, by omega⟩
  unfold Rwgps.fetchClubRoutes
  exact Rwgps.fetchLoop_spec upstream P k 1
    (fun i h1 h2 => hok i h1 (by omega))
    (fun i h1 h2 => hnostop i h1 (by omega))
    (by rw [show 1 + k = k + 1 from by omega]; exact hstop)

/-- Witness for C9: one short page terminates the loop after a single fetch
and returns that page's pairs. -/
theorem claim_C9_witness :
    Rwgps.fetchClubRoutes Rwgps.upstreamShort 1
      = some (Except.ok (Rwgps.pagesConcat (fun _ => Rwgps.pageShort) 1 1)) :=
  claim_C9_pagination_terminates Rwgps.upstreamShort (fun _ => Rwgps.pageShort) 1 le_rfl
    (fun i h1 h2 => rfl) (fun i h1 h2 => absurd h1 (by omega)) rfl

/-- C10: `isStale` is true for an absent entry, for any entry without a
`lastFetched` timestamp, and for entries older than the 3600-second
threshold, which is strictly shorter than the 86400-second hard TTL. -/
theorem claim_C10_isStale_defaults :
    (∀ now : ℚ, isStale now none = true)
    ∧ (∀ (now : ℚ) (c : CacheEntry), c.lastFetched = none → isStale now (some c) = true)
    ∧ (∀ (now : ℚ) (c : CacheEntry) (t : ℚ), c.lastFetched = some t →
        (now - t) / 1000 > STALE_THRESHOLD_SECONDS → isStale now (some c) = true)
    ∧ STALE_THRESHOLD_SECONDS = 3600 ∧ CACHE_TTL_SECONDS = 86400
    ∧ STALE_THRESHOLD_SECONDS < CACHE_TTL_SECONDS := by
  refine ⟨fun now => rfl, fun now c h => by simp [isStale, h], fun now c t h hgt => ?_, rfl, rfl, ?_⟩
  · simp [isStale, h, hgt]
  · norm_num [STALE_THRESHOLD_SECONDS, CACHE_TTL_SECONDS]

/-- Witness for C10: absent entry, timestampless entry, and an entry two
hours old are all stale. -/
theorem claim_C10_witness :
    isStale 0 none = true ∧ isStale 0 (some entryNoTs) = true
      ∧ isStale 7200000 (some entryOld) = true :=
  ⟨claim_C10_isStale_defaults.1 0,
   claim_C10_isStale_defaults.2.1 0 entryNoTs rfl,
   claim_C10_isStale_defaults.2.2.1 7200000 entryOld 0 rfl
     (by norm_num [STALE_THRESHOLD_SECONDS])⟩
